import Mathlib

/-!
Verification of the Suno music-generator front end (`src/app.py`).

The file shallowly embeds the Python module: JSON values become an inductive
type, Python dictionaries become association lists, HTTP traffic becomes an
oracle mapping an endpoint URL to the outcome the `requests` library would
deliver, and an uncaught Python exception becomes `Except.error`.  All
definitions mirror the source line by line; theorems about the frozen claims
follow at the end of the file.
-/

set_option autoImplicit false

namespace SunoApp

/-- JSON values, as delivered by `response.json()`.  Numbers are modelled as
integers (no claim depends on fractional values). -/
inductive Json where
  | null
  | bool (b : Bool)
  | num (n : Int)
  | str (s : String)
  | arr (xs : List Json)
  | obj (kvs : List (String × Json))

/-- First value bound to `key` in a Python dict modelled as an association
list (a real dict has unique keys, so first-match is exact). -/
def jlookup : List (String × Json) → String → Option Json
  | [], _ => none
  | (k, v) :: rest, key => if k = key then some v else jlookup rest key

/-- Python truthiness of a JSON value (`if x:`). -/
def Json.truthy : Json → Bool
  | .null => false
  | .bool b => b
  | .num n => n != 0
  | .str s => s != ""
  | .arr xs => !xs.isEmpty
  | .obj kvs => !kvs.isEmpty

/-- Python truthiness of an optional JSON value, where `none` is Python
`None`. -/
def truthyOpt : Option Json → Bool
  | none => false
  | some j => j.truthy

/-- Python `x.get(key)`: succeeds with the looked-up value on a dict and
raises `AttributeError` on any other value (list, string, number, ...). -/
def pyGet : Json → String → Except String (Option Json)
  | Json.obj kvs, key => .ok (jlookup kvs key)
  | _, _ => .error "AttributeError: object has no attribute get"

/-- Python `x.get(key, default)` on a value known to be a dict; any other
value yields the default (only used where the source guarantees a dict). -/
def pyGetD (j : Json) (key : String) (dflt : Json) : Json :=
  match j with
  | Json.obj kvs => (jlookup kvs key).getD dflt
  | _ => dflt

/-- Python `x == 200` on an optional JSON value (`None == 200` is `False`,
`True == 200` is `False`, `200 == 200` is `True`). -/
def isNum200 : Option Json → Bool
  | some (Json.num n) => n == 200
  | _ => false

/-- Python `a or b` between optional JSON values: keeps `a` when truthy,
otherwise yields `b`. -/
def pyOr (a b : Option Json) : Option Json :=
  if truthyOpt a then a else b

/-- Python `not s.strip()`: a string whose strip is empty is exactly a string
made of whitespace only. -/
def stripEmpty (s : String) : Bool :=
  s.data.all Char.isWhitespace

/-- Embedding of `validate_inputs` (src/app.py lines 210-247): checks prompt/style/title
against model- and mode-specific limits and returns
`(len(errors) == 0, errors)`. -/
def validate_inputs (prompt style title : String) (custom_mode instrumental : Bool)
    (model : String) : Bool × List String :=
  let limits : Nat × Nat :=
    if model = "V3_5" ∨ model = "V4" then
      (if custom_mode then 3000 else 400, 200)
    else
      (if custom_mode then 5000 else 400, 1000)
  let prompt_limit := limits.1
  let style_limit := limits.2
  let promptErrors : List String :=
    if custom_mode then
      (if instrumental = false ∧ prompt.length > prompt_limit then
        ["Prompt exceeds " ++ toString prompt_limit ++ " character limit for " ++ model]
       else []) ++
      (if instrumental = false ∧ stripEmpty prompt = true then
        ["Prompt is required when not instrumental in custom mode"]
       else [])
    else
      (if prompt.length > 400 then
        ["Prompt exceeds 400 character limit in non-custom mode"]
       else []) ++
      (if stripEmpty prompt = true then ["Prompt is required"] else [])
  let styleTitleErrors : List String :=
    if custom_mode then
      (if stripEmpty style = true then ["Style is required in custom mode"]
       else if style.length > style_limit then
        ["Style exceeds " ++ toString style_limit ++ " character limit for " ++ model]
       else []) ++
      (if stripEmpty title = true then ["Title is required in custom mode"]
       else if title.length > 80 then ["Title exceeds 80 character limit"]
       else [])
    else []
  let errors := promptErrors ++ styleTitleErrors
  (errors.isEmpty, errors)

/-- Outcome of one HTTP request, as seen through the `requests` library: either
the call raised a transport exception, or a response arrived carrying a status
code, a body text, and the result of attempting to parse that body as JSON
(`response.json()` raises, with a message, when the body is not JSON). -/
inductive HttpOutcome where
  | exn (msg : String)
  | resp (status : Nat) (text : String) (body : Except String Json)

/-- One entry of the diagnostic `results` list built by
`get_generation_status`; Python dict fields that a given attempt does not set
are `none`. -/
structure AttemptRecord where
  endpoint : String
  status_code : Option Nat
  success : Bool
  response_text : Option String
  data : Option Json
  error : Option String

/-- The dictionary returned by `get_generation_status`. -/
structure StatusResult where
  success : Bool
  status_code : Option Nat
  data : Option Json
  endpoint_used : Option String
  error : Option String
  all_attempts : List AttemptRecord

/-- Value of `self.base_url` (src/app.py line 63). -/
def base_url : String := "https://apibox.erweima.ai/api/v1"

/-- The hard-coded candidate list `possible_endpoints` of
`get_generation_status` (lines 115-125). -/
def possible_endpoints (task_id : String) : List String :=
  [base_url ++ "/details/" ++ task_id,
   base_url ++ "/task/" ++ task_id,
   base_url ++ "/generate/" ++ task_id,
   base_url ++ "/status/" ++ task_id,
   base_url ++ "/music/" ++ task_id,
   base_url ++ "/v1/details/" ++ task_id,
   base_url ++ "/api/v1/details/" ++ task_id,
   base_url ++ "/api/v1/task/" ++ task_id,
   base_url ++ "/api/v1/status/" ++ task_id]

/-- Truncation `response.text[:500] if response.text else ""` (line 136). -/
def truncate500 (text : String) : String :=
  if text = "" then "" else text.take 500

/-- The probing loop of `get_generation_status` (lines 129-169), one iteration
per candidate endpoint, accumulating the `results` list. -/
def statusLoop (env : String → HttpOutcome) : List String → List AttemptRecord → StatusResult
  | [], results =>
    { success := false, status_code := none, data := none, endpoint_used := none,
      error := some "No valid status endpoint found", all_attempts := results }
  | ep :: rest, results =>
    match env ep with
    | .exn msg =>
      statusLoop env rest (results ++
        [{ endpoint := ep, status_code := none, success := false,
           response_text := none, data := none, error := some msg }])
    | .resp status text body =>
      if status = 200 then
        match body with
        | .ok j =>
          { success := true, status_code := some status, data := some j,
            endpoint_used := some ep, error := none,
            all_attempts := results ++
              [{ endpoint := ep, status_code := some status, success := true,
                 response_text := some (truncate500 text), data := some j, error := none }] }
        | .error _ =>
          statusLoop env rest (results ++
            [{ endpoint := ep, status_code := some status, success := true,
               response_text := some (truncate500 text), data := none,
               error := some "Invalid JSON response" }])
      else
        statusLoop env rest (results ++
          [{ endpoint := ep, status_code := some status, success := decide (status = 200),
             response_text := some (truncate500 text), data := none, error := none }])

/-- Embedding of `SunoMusicGenerator.get_generation_status` (lines 112-169); `env` maps each
candidate URL to what `requests.get` would deliver for it. -/
def get_generation_status (env : String → HttpOutcome) (task_id : String) : StatusResult :=
  statusLoop env (possible_endpoints task_id) []

/-- Number of GET requests the probing loop issues on a given endpoint list:
one per iteration, stopping at the first HTTP 200 whose body parses. -/
def statusRequestCount (env : String → HttpOutcome) : List String → Nat
  | [] => 0
  | ep :: rest =>
    match env ep with
    | .exn _ => 1 + statusRequestCount env rest
    | .resp status _ body =>
      if status = 200 then
        match body with
        | .ok _ => 1
        | .error _ => 1 + statusRequestCount env rest
      else 1 + statusRequestCount env rest

/-- Holds of an endpoint whose request comes back HTTP 200 with a
JSON-parseable body — the condition on which the probing loop returns. -/
def endpointOk (env : String → HttpOutcome) (ep : String) : Bool :=
  match env ep with
  | .resp status _ (.ok _) => status == 200
  | _ => false

/-- The dictionary returned by `get_music_details`. -/
structure DetailsResult where
  success : Bool
  status_code : Option Nat
  data : Option Json
  endpoint_used : Option String
  error : Option String

/-- The hard-coded candidate list of `get_music_details` (lines 174-178). -/
def detailsEndpoints : List String :=
  [base_url ++ "/details",
   base_url ++ "/api/v1/details",
   base_url ++ "/fetch"]

/-- The probing loop of `get_music_details` (lines 180-194): any exception —
including a JSON parse failure on a 200 response — moves to the next endpoint,
and so does a non-200 response. -/
def detailsLoop (denv : String → String → HttpOutcome) (task_id : String) :
    List String → DetailsResult
  | [] =>
    { success := false, status_code := none, data := none, endpoint_used := none,
      error := some "No valid details endpoint found" }
  | ep :: rest =>
    match denv ep task_id with
    | .exn _ => detailsLoop denv task_id rest
    | .resp status _ body =>
      if status = 200 then
        match body with
        | .ok j =>
          { success := true, status_code := some status, data := some j,
            endpoint_used := some ep, error := none }
        | .error _ => detailsLoop denv task_id rest
      else detailsLoop denv task_id rest

/-- Embedding of `SunoMusicGenerator.get_music_details` (lines 171-199); `denv` maps an
endpoint URL and the task id posted in the body to the request outcome. -/
def get_music_details (denv : String → String → HttpOutcome) (task_id : String) :
    DetailsResult :=
  detailsLoop denv task_id detailsEndpoints

/-- Number of POST requests `get_music_details` issues on a given endpoint
list. -/
def detailsRequestCount (denv : String → String → HttpOutcome) (task_id : String) :
    List String → Nat
  | [] => 0
  | ep :: rest =>
    match denv ep task_id with
    | .exn _ => 1 + detailsRequestCount denv task_id rest
    | .resp status _ body =>
      if status = 200 then
        match body with
        | .ok _ => 1
        | .error _ => 1 + detailsRequestCount denv task_id rest
      else 1 + detailsRequestCount denv task_id rest

/-- The dictionary returned by `generate_music`. -/
structure GenerateResult where
  success : Bool
  status_code : Option Nat
  data : Option Json
  error : Option String

/-- Embedding of `SunoMusicGenerator.generate_music`, result part (lines 99-110): the
`try` block covers both the POST and `response.json()`, so a transport
exception or a JSON parse failure yields `success = False` with the exception
text, while any response whose body parses — whatever its status code —
yields `success = True`. -/
def generate_music (response : HttpOutcome) : GenerateResult :=
  match response with
  | .exn msg => { success := false, status_code := none, data := none, error := some msg }
  | .resp status _ body =>
    match body with
    | .ok j => { success := true, status_code := some status, data := some j, error := none }
    | .error msg => { success := false, status_code := none, data := none, error := some msg }

/-- Python dict assignment `d[k] = v`: overwrite in place when the key exists,
otherwise append at the end (dicts preserve insertion order). -/
def dictSet (d : List (String × Json)) (k : String) (v : Json) : List (String × Json) :=
  if (d.map Prod.fst).contains k then
    d.map (fun kv => if kv.1 = k then (k, v) else kv)
  else d ++ [(k, v)]

/-- Python `d.pop(k, None)`, state part: remove the key when present. -/
def dictPop (d : List (String × Json)) (k : String) : List (String × Json) :=
  d.filter (fun kv => kv.1 ≠ k)

/-- The request payload built by `generate_music` (src/app.py lines 77-97):
a base dict of prompt/customMode/instrumental/model/callBackUrl, then style
and title in custom mode, the prompt popped when additionally instrumental,
and negativeTags when the string is non-empty (truthy). -/
def build_payload (prompt style title : String) (custom_mode instrumental : Bool)
    (model negative_tags callback_url : String) : List (String × Json) :=
  let payload : List (String × Json) :=
    [("prompt", .str prompt),
     ("customMode", .bool custom_mode),
     ("instrumental", .bool instrumental),
     ("model", .str model),
     ("callBackUrl", .str callback_url)]
  let payload :=
    if custom_mode then
      if instrumental = false then
        dictSet (dictSet payload "style" (.str style)) "title" (.str title)
      else
        dictPop (dictSet (dictSet payload "style" (.str style)) "title" (.str title)) "prompt"
    else payload
  if negative_tags ≠ "" then dictSet payload "negativeTags" (.str negative_tags)
  else payload

/-- One value of `st.session_state.generation_status`: the fields the status
checker reads or writes, plus the untouched remainder of the dict. -/
structure Entry where
  status : String
  task_id : Option String
  error_message : Option Json
  rest : List (String × Json)

/-- The session state the status checker works on. -/
structure SessionState where
  api_key : String
  generation_status : List (String × Entry)
  generated_songs : List Json

/-- What one round of polling decides for one task (the branch structure of
src/app.py lines 262-305). -/
inductive PollOutcome where
  | complete (songs : List Json)
  | failed (msg : Json)
  | noChange
  | crash (msg : String)

/-- The decision `check_and_update_status` takes on the body of a successful
`get_generation_status` poll (src/app.py lines 264-290): completion requires
`code == 200`, a truthy `data` section, and a truthy `audio_url` on the first
list element or on the data dict; `code != 200` is the error branch; a `.get`
on a non-dict raises, i.e. crashes. In the list case the whole list is the
song payload (`extend(song_data)`). -/
def completionDecision (data : Json) : PollOutcome :=
  match pyGet data "code" with
  | .error msg => .crash msg
  | .ok code =>
    if isNum200 code then
      match pyGet data "data" with
      | .error msg => .crash msg
      | .ok datOpt =>
        if truthyOpt datOpt then
          match datOpt.getD Json.null with
          | Json.arr (first :: others) =>
            match pyGet first "audio_url" with
            | .error msg => .crash msg
            | .ok au =>
              if truthyOpt au then .complete (first :: others) else .noChange
          | Json.arr [] => .noChange
          | Json.obj kvs =>
            if truthyOpt (jlookup kvs "audio_url") then .complete [Json.obj kvs]
            else .noChange
          | _ => .noChange
        else .noChange
    else .failed (pyGetD data "msg" (Json.str "Unknown error"))

/-- The decision taken on the body of a successful `get_music_details`
fallback (lines 293-305): same completion test but only in the list shape,
and no error branch. -/
def fallbackDecision (data : Json) : PollOutcome :=
  match pyGet data "code" with
  | .error msg => .crash msg
  | .ok code =>
    if isNum200 code then
      match pyGet data "data" with
      | .error msg => .crash msg
      | .ok datOpt =>
        if truthyOpt datOpt then
          match datOpt.getD Json.null with
          | Json.arr (first :: others) =>
            match pyGet first "audio_url" with
            | .error msg => .crash msg
            | .ok au =>
              if truthyOpt au then .complete (first :: others) else .noChange
          | _ => .noChange
        else .noChange
    else .noChange

/-- The per-task polling logic of `check_and_update_status` (lines 262-305):
poll `get_generation_status` and judge its body on success; when the poll
fails, fall back to `get_music_details` and judge that body instead
(the body lookup defaults a missing body to the empty dict). -/
def pollOutcome (env : String → HttpOutcome) (denv : String → String → HttpOutcome)
    (task_id : String) : PollOutcome :=
  let result := get_generation_status env task_id
  if result.success then
    completionDecision (result.data.getD (Json.obj []))
  else
    let details_result := get_music_details denv task_id
    if details_result.success then
      fallbackDecision (details_result.data.getD (Json.obj []))
    else .noChange

/-- Processing of one `generation_status` entry by `check_and_update_status`
(lines 257-305): only entries whose status is the string `processing` and
whose task id is truthy are polled; a completed poll sets the status to
`complete` and yields the songs to append, a failed poll sets the status to
`error` and records the message, and a crash is the uncaught Python
exception. The boolean is the `updated` flag. -/
def processEntry (env : String → HttpOutcome) (denv : String → String → HttpOutcome)
    (e : Entry) : Except String (Entry × List Json × Bool) :=
  if e.status = "processing" then
    match e.task_id with
    | none => .ok (e, [], false)
    | some task_id =>
      if task_id = "" then .ok (e, [], false)
      else
        match pollOutcome env denv task_id with
        | .complete songs => .ok ({ e with status := "complete" }, songs, true)
        | .failed msg =>
          .ok ({ e with status := "error", error_message := some msg }, [], true)
        | .noChange => .ok (e, [], false)
        | .crash msg => .error msg
  else .ok (e, [], false)

/-- The loop of `check_and_update_status` over the `generation_status` dict:
mutations made before a crash persist (Streamlit session state is mutated in
place), the crashing entry and every later entry are left untouched, and the
last component is the exception that escaped, when one did. -/
def check_entries (env : String → HttpOutcome) (denv : String → String → HttpOutcome) :
    List (String × Entry) → List (String × Entry) × List Json × Bool × Option String
  | [] => ([], [], false, none)
  | (k, e) :: restEntries =>
    match processEntry env denv e with
    | .error msg => ((k, e) :: restEntries, [], false, some msg)
    | .ok (e2, songs, upd) =>
      let r := check_entries env denv restEntries
      ((k, e2) :: r.1, songs ++ r.2.1, upd || r.2.2.1, r.2.2.2)

/-- Embedding of `check_and_update_status` (src/app.py lines 249-307): early return when
the API key is falsy, otherwise walk every entry, appending completed songs
to `generated_songs`; returns the updated state, the `updated` flag, and the
escaped exception when the walk crashed. -/
def check_and_update_status (env : String → HttpOutcome)
    (denv : String → String → HttpOutcome) (st : SessionState) :
    SessionState × Bool × Option String :=
  if st.api_key = "" then (st, false, none)
  else
    let r := check_entries env denv st.generation_status
    ({ st with generation_status := r.1,
               generated_songs := st.generated_songs ++ r.2.1 },
     r.2.2.1, r.2.2.2)

/-- The task-id extraction of `main` (src/app.py lines 500-526): on a dict
response, a short-circuiting `or`-chain over top-level `task_id`/`taskId`/`id`,
then the same keys on the value under `data` (defaulted to the empty dict when
absent) — a dotted `.get` lookup that raises
`AttributeError` when the `data` value is not a dict — and finally, when the
chain ended falsy and `data` is present, the same keys on the first element of
a list-shaped `data`. A non-dict response leaves the task id `None`. -/
def extract_task_id (response_data : Json) : Except String (Option Json) :=
  match response_data with
  | Json.obj kvs =>
    let t1 := jlookup kvs "task_id"
    if truthyOpt t1 then .ok t1 else
    let t2 := jlookup kvs "taskId"
    if truthyOpt t2 then .ok t2 else
    let t3 := jlookup kvs "id"
    if truthyOpt t3 then .ok t3 else
    let dsec := (jlookup kvs "data").getD (Json.obj [])
    match pyGet dsec "task_id" with
    | .error msg => .error msg
    | .ok t4 =>
      if truthyOpt t4 then .ok t4 else
      match pyGet dsec "taskId" with
      | .error msg => .error msg
      | .ok t5 =>
        if truthyOpt t5 then .ok t5 else
        match pyGet dsec "id" with
        | .error msg => .error msg
        | .ok t6 =>
          if !truthyOpt t6 && (jlookup kvs "data").isSome then
            match jlookup kvs "data" with
            | some (Json.arr (first :: _)) =>
              match first with
              | Json.obj fk =>
                .ok (pyOr (jlookup fk "task_id")
                      (pyOr (jlookup fk "taskId") (jlookup fk "id")))
              | _ => .ok t6
            | _ => .ok t6
          else .ok t6
  | _ => .ok none

/-- The names bound at module level of `src/app.py`: its imports and its
`def`/`class` statements. The lines 308-351 that read like a
`display_song_card` body sit after the `return` statement of
`check_and_update_status` and bind no name. -/
def moduleTopLevelNames : List String :=
  ["st", "requests", "time", "json", "datetime", "base64", "BytesIO", "threading",
   "Dict", "List", "Optional", "SunoMusicGenerator", "initialize_session_state",
   "validate_inputs", "check_and_update_status", "main"]

/-- The Generated Songs tab of `main` (src/app.py lines 720-777): with no
completed songs it renders the demo card; otherwise it calls
`display_song_card(song, i)` for each song, and a Python call through an
unbound name raises `NameError`. -/
def renderGeneratedSongsTab (generated_songs : List Json) : Except String Unit :=
  if generated_songs.isEmpty then .ok ()
  else if moduleTopLevelNames.contains "display_song_card" then .ok ()
  else .error "NameError: name display_song_card is not defined"

/-- Lookup of a key on a JSON value when it is a dict, `none` otherwise. -/
def jsonGet (d : Json) (k : String) : Option Json :=
  match d with
  | Json.obj kvs => jlookup kvs k
  | _ => none

/-- Stated from the claim (C6) rather than from the code: the polled response
has `code` equal to 200, a non-empty (truthy) `data` section, and a non-empty
`audio_url` found either on the `data` dictionary itself or on the first
element of the `data` list. -/
def claimedCompletion (d : Json) : Bool :=
  isNum200 (jsonGet d "code") &&
  truthyOpt (jsonGet d "data") &&
  (match jsonGet d "data" with
   | some (Json.obj kvs) => truthyOpt (jlookup kvs "audio_url")
   | some (Json.arr (first :: _)) =>
     (match first with
      | Json.obj fk => truthyOpt (jlookup fk "audio_url")
      | _ => false)
   | _ => false)

/-- Shape of a recorded attempt, relative to what the network delivered for
its endpoint: an attempt that got an HTTP response records the status code and
the body truncated to 500 characters, while an attempt whose request raised
records no status code and the exception text. -/
def attemptShape (env : String → HttpOutcome) (candidates : List String)
    (a : AttemptRecord) : Prop :=
  a.endpoint ∈ candidates ∧
  (match env a.endpoint with
   | .exn msg => a.status_code = none ∧ a.response_text = none ∧ a.error = some msg
   | .resp status text _ =>
     a.status_code = some status ∧ a.response_text = some (truncate500 text))

/-- Relation between a `generation_status` entry before and after one status
check: same key, an entry not in `processing` is untouched, and a mutated
entry only ever moves to `complete` or `error`. -/
def entryForward (p q : String × Entry) : Prop :=
  p.1 = q.1 ∧
  (p.2.status ≠ "processing" → q.2 = p.2) ∧
  (q.2 ≠ p.2 → q.2.status = "complete" ∨ q.2.status = "error")

/-! ## Helper lemmas about the probing loops -/

lemma statusLoop_success_iff (env : String → HttpOutcome) (eps : List String) :
    ∀ acc, ((statusLoop env eps acc).success = true ↔ eps.any (endpointOk env)) := by
  induction eps with
  | nil => intro acc; simp [statusLoop]
  | cons ep rest ih =>
    intro acc
    cases h : env ep with
    | exn msg => simp [statusLoop, h, ih, endpointOk]
    | resp status text body =>
      by_cases hs : status = 200
      · subst hs
        cases body with
        | ok j => simp [statusLoop, h, endpointOk]
        | error m => simp [statusLoop, h, ih, endpointOk]
      · cases body with
        | ok j => simp [statusLoop, h, hs, ih, endpointOk]
        | error m => simp [statusLoop, h, hs, ih, endpointOk]

lemma statusLoop_endpoint_used (env : String → HttpOutcome) (eps : List String) :
    ∀ acc, (statusLoop env eps acc).success = true →
      (statusLoop env eps acc).endpoint_used = eps.find? (endpointOk env) := by
  induction eps with
  | nil => intro acc h; simp [statusLoop] at h
  | cons ep rest ih =>
    intro acc
    cases h : env ep with
    | exn msg =>
      simp only [statusLoop, h, List.find?, endpointOk]
      exact ih _
    | resp status text body =>
      by_cases hs : status = 200
      · subst hs
        cases body with
        | ok j => simp [statusLoop, h, endpointOk, List.find?]
        | error m =>
          simp only [statusLoop, h, if_pos rfl, List.find?, endpointOk]
          exact ih _
      · have hb : (status == 200) = false := by simpa using hs
        cases body with
        | ok j =>
          simp only [statusLoop, h, if_neg hs, List.find?, endpointOk, hb]
          exact ih _
        | error m =>
          simp only [statusLoop, h, if_neg hs, List.find?, endpointOk]
          exact ih _

lemma statusLoop_attempts_map (env : String → HttpOutcome) (eps : List String) :
    ∀ acc, (statusLoop env eps acc).all_attempts.map (fun a => a.endpoint) =
      acc.map (fun a => a.endpoint) ++ eps.take (statusRequestCount env eps) := by
  induction eps with
  | nil => intro acc; simp [statusLoop, statusRequestCount]
  | cons ep rest ih =>
    intro acc
    cases h : env ep with
    | exn msg =>
      simp [statusLoop, h, ih, statusRequestCount, Nat.add_comm 1, List.take_succ_cons]
    | resp status text body =>
      by_cases hs : status = 200
      · subst hs
        cases body with
        | ok j => simp [statusLoop, h, statusRequestCount]
        | error m =>
          simp [statusLoop, h, ih, statusRequestCount, Nat.add_comm 1, List.take_succ_cons]
      · cases body with
        | ok j =>
          simp [statusLoop, h, hs, ih, statusRequestCount, Nat.add_comm 1, List.take_succ_cons]
        | error m =>
          simp [statusLoop, h, hs, ih, statusRequestCount, Nat.add_comm 1, List.take_succ_cons]

lemma statusRequestCount_le (env : String → HttpOutcome) (eps : List String) :
    statusRequestCount env eps ≤ eps.length := by
  induction eps with
  | nil => simp [statusRequestCount]
  | cons ep rest ih =>
    cases h : env ep with
    | exn msg => simp [statusRequestCount, h]; omega
    | resp status text body =>
      by_cases hs : status = 200
      · subst hs
        cases body with
        | ok j => simp [statusRequestCount, h]
        | error m => simp [statusRequestCount, h]; omega
      · cases body with
        | ok j => simp [statusRequestCount, h, hs]; omega
        | error m => simp [statusRequestCount, h, hs]; omega

lemma statusLoop_failure_count (env : String → HttpOutcome) (eps : List String) :
    ∀ acc, (statusLoop env eps acc).success = false →
      statusRequestCount env eps = eps.length := by
  induction eps with
  | nil => intro acc _; simp [statusRequestCount]
  | cons ep rest ih =>
    intro acc
    cases h : env ep with
    | exn msg => simp [statusLoop, h, statusRequestCount]; intro hf; rw [ih _ hf]; omega
    | resp status text body =>
      by_cases hs : status = 200
      · subst hs
        cases body with
        | ok j => simp [statusLoop, h, statusRequestCount]
        | error m =>
          simp [statusLoop, h, statusRequestCount]; intro hf; rw [ih _ hf]; omega
      · cases body with
        | ok j =>
          simp [statusLoop, h, hs, statusRequestCount]; intro hf; rw [ih _ hf]; omega
        | error m =>
          simp [statusLoop, h, hs, statusRequestCount]; intro hf; rw [ih _ hf]; omega

lemma statusLoop_failure_error (env : String → HttpOutcome) (eps : List String) :
    ∀ acc, (statusLoop env eps acc).success = false →
      (statusLoop env eps acc).error = some "No valid status endpoint found" := by
  induction eps with
  | nil => intro acc _; simp [statusLoop]
  | cons ep rest ih =>
    intro acc
    cases h : env ep with
    | exn msg => simp [statusLoop, h]; exact ih _
    | resp status text body =>
      by_cases hs : status = 200
      · subst hs
        cases body with
        | ok j => simp [statusLoop, h]
        | error m => simp [statusLoop, h]; exact ih _
      · cases body with
        | ok j => simp [statusLoop, h, hs]; exact ih _
        | error m => simp [statusLoop, h, hs]; exact ih _

lemma statusLoop_attempt_shape (env : String → HttpOutcome) (eps : List String)
    (candidates : List String) (heps : ∀ ep ∈ eps, ep ∈ candidates) :
    ∀ acc, (∀ a ∈ acc, attemptShape env candidates a) →
      ∀ a ∈ (statusLoop env eps acc).all_attempts, attemptShape env candidates a := by
  induction eps with
  | nil => intro acc hacc; simpa [statusLoop] using hacc
  | cons ep rest ih =>
    have hep : ep ∈ candidates := heps ep (by simp)
    have hrest : ∀ x ∈ rest, x ∈ candidates := fun x hx => heps x (by simp [hx])
    intro acc hacc
    cases h : env ep with
    | exn msg =>
      refine fun a ha => ?_
      rw [statusLoop, h] at ha
      refine ih hrest _ (fun b hb => ?_) a ha
      rcases List.mem_append.mp hb with hb | hb
      · exact hacc b hb
      · simp only [List.mem_singleton] at hb
        subst hb
        exact ⟨hep, by simp [h]⟩
    | resp status text body =>
      by_cases hs : status = 200
      · subst hs
        cases body with
        | ok j =>
          intro a ha
          rw [statusLoop, h] at ha
          simp only [if_pos rfl] at ha
          rcases List.mem_append.mp ha with ha | ha
          · exact hacc a ha
          · simp only [List.mem_singleton] at ha
            subst ha
            exact ⟨hep, by simp [h]⟩
        | error m =>
          intro a ha
          rw [statusLoop, h] at ha
          simp only [if_pos rfl] at ha
          refine ih hrest _ (fun b hb => ?_) a ha
          rcases List.mem_append.mp hb with hb | hb
          · exact hacc b hb
          · simp only [List.mem_singleton] at hb
            subst hb
            exact ⟨hep, by simp [h]⟩
      · cases body with
        | ok j =>
          intro a ha
          rw [statusLoop, h] at ha
          simp only [if_neg hs] at ha
          refine ih hrest _ (fun b hb => ?_) a ha
          rcases List.mem_append.mp hb with hb | hb
          · exact hacc b hb
          · simp only [List.mem_singleton] at hb
            subst hb
            exact ⟨hep, by simp [h]⟩
        | error m =>
          intro a ha
          rw [statusLoop, h] at ha
          simp only [if_neg hs] at ha
          refine ih hrest _ (fun b hb => ?_) a ha
          rcases List.mem_append.mp hb with hb | hb
          · exact hacc b hb
          · simp only [List.mem_singleton] at hb
            subst hb
            exact ⟨hep, by simp [h]⟩

lemma detailsLoop_failure_error (denv : String → String → HttpOutcome) (task_id : String)
    (eps : List String) : (detailsLoop denv task_id eps).success = false →
      (detailsLoop denv task_id eps).error = some "No valid details endpoint found" := by
  induction eps with
  | nil => intro _; simp [detailsLoop]
  | cons ep rest ih =>
    cases h : denv ep task_id with
    | exn msg => simp [detailsLoop, h]; exact ih
    | resp status text body =>
      by_cases hs : status = 200
      · subst hs
        cases body with
        | ok j => simp [detailsLoop, h]
        | error m => simp [detailsLoop, h]; exact ih
      · cases body with
        | ok j => simp [detailsLoop, h, hs]; exact ih
        | error m => simp [detailsLoop, h, hs]; exact ih

lemma detailsRequestCount_le (denv : String → String → HttpOutcome) (task_id : String)
    (eps : List String) : detailsRequestCount denv task_id eps ≤ eps.length := by
  induction eps with
  | nil => simp [detailsRequestCount]
  | cons ep rest ih =>
    cases h : denv ep task_id with
    | exn msg => simp [detailsRequestCount, h]; omega
    | resp status text body =>
      by_cases hs : status = 200
      · subst hs
        cases body with
        | ok j => simp [detailsRequestCount, h]
        | error m => simp [detailsRequestCount, h]; omega
      · cases body with
        | ok j => simp [detailsRequestCount, h, hs]; omega
        | error m => simp [detailsRequestCount, h, hs]; omega

/-! ## Claim theorems -/

/-- Claim C2, counterexample: when the transport layer raises for every
candidate endpoint, `get_generation_status` still records one attempt per
endpoint, but those records carry no status code and no body — refuting the
claim that every attempt is recorded with its endpoint URL, status code and
truncated body. -/
theorem c2_counterexample :
    ((get_generation_status (fun _ => HttpOutcome.exn "Connection refused") "tid").all_attempts.length
      = 9) ∧
    ((get_generation_status (fun _ => HttpOutcome.exn "Connection refused") "tid").all_attempts.all
      (fun a => a.status_code.isSome) = false) :=
  ⟨rfl, rfl⟩

/-- Claim C2 (amended): `get_generation_status` tries the hard-coded candidate
URLs in order and succeeds exactly when some candidate answers HTTP 200 with a
parseable body, in which case `endpoint_used` is the first such candidate (a
200 with unparseable JSON is recorded and skipped); the recorded attempts are
precisely the prefix of candidates tried, so a failure is returned only after
all nine were tried; and each record carries the endpoint plus — for an
attempt that got an HTTP response — its status code and body truncated to 500
characters, while an attempt whose request raised carries the exception text
instead. -/
theorem c2_probe_and_recording (env : String → HttpOutcome) (task_id : String) :
    ((get_generation_status env task_id).success = true ↔
      (possible_endpoints task_id).any (endpointOk env)) ∧
    ((get_generation_status env task_id).success = true →
      (get_generation_status env task_id).endpoint_used =
        (possible_endpoints task_id).find? (endpointOk env)) ∧
    ((get_generation_status env task_id).all_attempts.map (fun a => a.endpoint) =
      (possible_endpoints task_id).take (statusRequestCount env (possible_endpoints task_id))) ∧
    ((get_generation_status env task_id).success = false →
      (get_generation_status env task_id).all_attempts.map (fun a => a.endpoint) =
        possible_endpoints task_id) ∧
    (∀ a ∈ (get_generation_status env task_id).all_attempts,
      attemptShape env (possible_endpoints task_id) a) := by
  refine ⟨statusLoop_success_iff env _ [], statusLoop_endpoint_used env _ [], ?_, ?_, ?_⟩
  · simpa using statusLoop_attempts_map env (possible_endpoints task_id) []
  · intro hf
    have hc := statusLoop_failure_count env (possible_endpoints task_id) [] hf
    have hm := statusLoop_attempts_map env (possible_endpoints task_id) []
    simpa [hc, List.take_length] using hm
  · exact statusLoop_attempt_shape env _ _ (fun ep h => h) [] (by simp)

/-- Claim C2 witness: on a network where every candidate answers 404, the
probe fails and its attempt log covers all nine candidates. -/
theorem c2_probe_and_recording_witness :
    (get_generation_status (fun _ => HttpOutcome.resp 404 "nope" (Except.error "x")) "w").success
      = false ∧
    (get_generation_status (fun _ => HttpOutcome.resp 404 "nope" (Except.error "x")) "w").all_attempts.map
      (fun a => a.endpoint) = possible_endpoints "w" :=
  ⟨rfl,
   (c2_probe_and_recording (fun _ => HttpOutcome.resp 404 "nope" (Except.error "x")) "w").2.2.2.1 rfl⟩

/-- Claim C3, counterexample: `generate_music` returns `success = True` for an
HTTP 500 response whose body parses as JSON, refuting the claim that it never
returns success for a non-200 response. -/
theorem c3_counterexample :
    (generate_music (HttpOutcome.resp 500 "Internal Server Error"
      (Except.ok (Json.obj [("msg", Json.str "error")])))).success = true ∧
    (generate_music (HttpOutcome.resp 500 "Internal Server Error"
      (Except.ok (Json.obj [("msg", Json.str "error")])))).status_code = some 500 :=
  ⟨rfl, rfl⟩

/-- Claim C3 (amended): a transport exception or a JSON decode error makes
`generate_music` return `success = false` with the exception text, and
`get_generation_status` / `get_music_details` return `success = false` with an
error string once every candidate endpoint has failed; but a response whose
body parses makes `generate_music` return `success = true` whatever its status
code — the caller compensates by checking `status_code == 200` separately. -/
theorem c3_error_results :
    (∀ msg, (generate_music (HttpOutcome.exn msg)).success = false ∧
      (generate_music (HttpOutcome.exn msg)).error = some msg) ∧
    (∀ status text msg,
      (generate_music (HttpOutcome.resp status text (Except.error msg))).success = false ∧
      (generate_music (HttpOutcome.resp status text (Except.error msg))).error = some msg) ∧
    (∀ status text j,
      (generate_music (HttpOutcome.resp status text (Except.ok j))).success = true) ∧
    (∀ env task_id, (get_generation_status env task_id).success = false →
      (get_generation_status env task_id).error = some "No valid status endpoint found") ∧
    (∀ denv task_id, (get_music_details denv task_id).success = false →
      (get_music_details denv task_id).error = some "No valid details endpoint found") := by
  refine ⟨fun msg => ⟨rfl, rfl⟩, fun s t m => ⟨rfl, rfl⟩, fun s t j => rfl, ?_, ?_⟩
  · exact fun env tid => statusLoop_failure_error env _ []
  · exact fun denv tid => detailsLoop_failure_error denv tid _

/-- Claim C3 witness: with every request raising, the status probe reports the
final failure error string. -/
theorem c3_error_results_witness :
    (get_generation_status (fun _ => HttpOutcome.exn "boom") "w3").success = false ∧
    (get_generation_status (fun _ => HttpOutcome.exn "boom") "w3").error =
      some "No valid status endpoint found" :=
  ⟨rfl, c3_error_results.2.2.2.1 (fun _ => HttpOutcome.exn "boom") "w3" rfl⟩

/-- Claim C7: one status check issues at most 9 GET requests in
`get_generation_status` (its attempt log is exactly one record per request)
and at most 3 POST requests in the `get_music_details` fallback, hence at most
12 — within the claimed ~18 — requests in total. -/
theorem c7_request_bound (env : String → HttpOutcome)
    (denv : String → String → HttpOutcome) (task_id : String) :
    statusRequestCount env (possible_endpoints task_id) ≤ 9 ∧
    detailsRequestCount denv task_id detailsEndpoints ≤ 3 ∧
    statusRequestCount env (possible_endpoints task_id) +
      detailsRequestCount denv task_id detailsEndpoints ≤ 18 ∧
    (get_generation_status env task_id).all_attempts.length =
      statusRequestCount env (possible_endpoints task_id) := by
  have hl9 : (possible_endpoints task_id).length = 9 := by simp [possible_endpoints]
  have hl3 : detailsEndpoints.length = 3 := by simp [detailsEndpoints]
  have h1 : statusRequestCount env (possible_endpoints task_id) ≤ 9 := by
    have := statusRequestCount_le env (possible_endpoints task_id)
    omega
  have h2 : detailsRequestCount denv task_id detailsEndpoints ≤ 3 := by
    have := detailsRequestCount_le denv task_id detailsEndpoints
    omega
  refine ⟨h1, h2, by omega, ?_⟩
  have hm := statusLoop_attempts_map env (possible_endpoints task_id) []
  have hlen := congrArg List.length hm
  simp only [List.length_map, List.length_take, List.map_nil, List.nil_append, hl9] at hlen
  have : (get_generation_status env task_id).all_attempts.length =
      min (statusRequestCount env (possible_endpoints task_id)) 9 := hlen
  omega

/-! ### Validator lemmas (claims C1 and C9) -/

lemma c1a (p s t : String) (cm i : Bool) (m : String) :
    (validate_inputs p s t cm i m).1 = true ↔ (validate_inputs p s t cm i m).2 = [] := by
  simp [validate_inputs]

lemma c1b1 (p s t : String) :
    "Prompt exceeds 3000 character limit for V4" ∈ (validate_inputs p s t true false "V4").2 ↔
      3000 < p.length := by
  have e1 : "Prompt exceeds " ++ toString 3000 ++ " character limit for " ++ "V4" =
      "Prompt exceeds 3000 character limit for V4" := rfl
  have e2 : "Style exceeds " ++ toString 200 ++ " character limit for " ++ "V4" =
      "Style exceeds 200 character limit for V4" := rfl
  simp [validate_inputs, e1, e2] <;> try (split_ifs <;> simp_all)

lemma c1b2 (p s t : String) :
    "Prompt exceeds 3000 character limit for V3_5" ∈ (validate_inputs p s t true false "V3_5").2 ↔
      3000 < p.length := by
  have e1 : "Prompt exceeds " ++ toString 3000 ++ " character limit for " ++ "V3_5" =
      "Prompt exceeds 3000 character limit for V3_5" := rfl
  have e2 : "Style exceeds " ++ toString 200 ++ " character limit for " ++ "V3_5" =
      "Style exceeds 200 character limit for V3_5" := rfl
  simp [validate_inputs, e1, e2] <;> try (split_ifs <;> simp_all)

lemma c1b3 (p s t : String) :
    "Prompt exceeds 5000 character limit for V4_5" ∈ (validate_inputs p s t true false "V4_5").2 ↔
      5000 < p.length := by
  have e1 : "Prompt exceeds " ++ toString 5000 ++ " character limit for " ++ "V4_5" =
      "Prompt exceeds 5000 character limit for V4_5" := rfl
  have e2 : "Style exceeds " ++ toString 1000 ++ " character limit for " ++ "V4_5" =
      "Style exceeds 1000 character limit for V4_5" := rfl
  simp [validate_inputs, e1, e2] <;> try (split_ifs <;> simp_all)

lemma c1c (p s t : String) (i : Bool) (m : String) :
    "Prompt exceeds 400 character limit in non-custom mode" ∈ (validate_inputs p s t false i m).2 ↔
      400 < p.length := by
  simp [validate_inputs] <;> try (split_ifs <;> simp_all)

lemma c1d (p s t : String) (i : Bool) (m : String) :
    "Prompt is required" ∈ (validate_inputs p s t false i m).2 ↔ stripEmpty p = true := by
  simp [validate_inputs] <;> try (split_ifs <;> simp_all)

lemma c1e1 (p s t : String) :
    "Prompt is required when not instrumental in custom mode" ∈
      (validate_inputs p s t true false "V4").2 ↔ stripEmpty p = true := by
  have e1 : "Prompt exceeds " ++ toString 3000 ++ " character limit for " ++ "V4" =
      "Prompt exceeds 3000 character limit for V4" := rfl
  have e2 : "Style exceeds " ++ toString 200 ++ " character limit for " ++ "V4" =
      "Style exceeds 200 character limit for V4" := rfl
  simp [validate_inputs, e1, e2] <;> try (split_ifs <;> simp_all)

lemma c1e2 (p s t : String) :
    "Prompt is required when not instrumental in custom mode" ∈
      (validate_inputs p s t true false "V3_5").2 ↔ stripEmpty p = true := by
  have e1 : "Prompt exceeds " ++ toString 3000 ++ " character limit for " ++ "V3_5" =
      "Prompt exceeds 3000 character limit for V3_5" := rfl
  have e2 : "Style exceeds " ++ toString 200 ++ " character limit for " ++ "V3_5" =
      "Style exceeds 200 character limit for V3_5" := rfl
  simp [validate_inputs, e1, e2] <;> try (split_ifs <;> simp_all)

lemma c1e3 (p s t : String) :
    "Prompt is required when not instrumental in custom mode" ∈
      (validate_inputs p s t true false "V4_5").2 ↔ stripEmpty p = true := by
  have e1 : "Prompt exceeds " ++ toString 5000 ++ " character limit for " ++ "V4_5" =
      "Prompt exceeds 5000 character limit for V4_5" := rfl
  have e2 : "Style exceeds " ++ toString 1000 ++ " character limit for " ++ "V4_5" =
      "Style exceeds 1000 character limit for V4_5" := rfl
  simp [validate_inputs, e1, e2] <;> try (split_ifs <;> simp_all)

lemma c1f1 (p s t : String) (i : Bool) :
    "Style exceeds 200 character limit for V4" ∈ (validate_inputs p s t true i "V4").2 ↔
      (stripEmpty s = false ∧ 200 < s.length) := by
  have e1 : "Prompt exceeds " ++ toString 3000 ++ " character limit for " ++ "V4" =
      "Prompt exceeds 3000 character limit for V4" := rfl
  have e2 : "Style exceeds " ++ toString 200 ++ " character limit for " ++ "V4" =
      "Style exceeds 200 character limit for V4" := rfl
  cases i <;> simp [validate_inputs, e1, e2] <;> try (split_ifs <;> simp_all)

lemma c1f2 (p s t : String) (i : Bool) :
    "Style exceeds 200 character limit for V3_5" ∈ (validate_inputs p s t true i "V3_5").2 ↔
      (stripEmpty s = false ∧ 200 < s.length) := by
  have e1 : "Prompt exceeds " ++ toString 3000 ++ " character limit for " ++ "V3_5" =
      "Prompt exceeds 3000 character limit for V3_5" := rfl
  have e2 : "Style exceeds " ++ toString 200 ++ " character limit for " ++ "V3_5" =
      "Style exceeds 200 character limit for V3_5" := rfl
  cases i <;> simp [validate_inputs, e1, e2] <;> try (split_ifs <;> simp_all)

lemma c1f3 (p s t : String) (i : Bool) :
    "Style exceeds 1000 character limit for V4_5" ∈ (validate_inputs p s t true i "V4_5").2 ↔
      (stripEmpty s = false ∧ 1000 < s.length) := by
  have e1 : "Prompt exceeds " ++ toString 5000 ++ " character limit for " ++ "V4_5" =
      "Prompt exceeds 5000 character limit for V4_5" := rfl
  have e2 : "Style exceeds " ++ toString 1000 ++ " character limit for " ++ "V4_5" =
      "Style exceeds 1000 character limit for V4_5" := rfl
  cases i <;> simp [validate_inputs, e1, e2] <;> try (split_ifs <;> simp_all)

lemma c1g1 (p s t : String) (i : Bool) :
    "Style is required in custom mode" ∈ (validate_inputs p s t true i "V4").2 ↔
      stripEmpty s = true := by
  have e1 : "Prompt exceeds " ++ toString 3000 ++ " character limit for " ++ "V4" =
      "Prompt exceeds 3000 character limit for V4" := rfl
  have e2 : "Style exceeds " ++ toString 200 ++ " character limit for " ++ "V4" =
      "Style exceeds 200 character limit for V4" := rfl
  cases i <;> simp [validate_inputs, e1, e2] <;> try (split_ifs <;> simp_all)

lemma c1g2 (p s t : String) (i : Bool) :
    "Style is required in custom mode" ∈ (validate_inputs p s t true i "V3_5").2 ↔
      stripEmpty s = true := by
  have e1 : "Prompt exceeds " ++ toString 3000 ++ " character limit for " ++ "V3_5" =
      "Prompt exceeds 3000 character limit for V3_5" := rfl
  have e2 : "Style exceeds " ++ toString 200 ++ " character limit for " ++ "V3_5" =
      "Style exceeds 200 character limit for V3_5" := rfl
  cases i <;> simp [validate_inputs, e1, e2] <;> try (split_ifs <;> simp_all)

lemma c1g3 (p s t : String) (i : Bool) :
    "Style is required in custom mode" ∈ (validate_inputs p s t true i "V4_5").2 ↔
      stripEmpty s = true := by
  have e1 : "Prompt exceeds " ++ toString 5000 ++ " character limit for " ++ "V4_5" =
      "Prompt exceeds 5000 character limit for V4_5" := rfl
  have e2 : "Style exceeds " ++ toString 1000 ++ " character limit for " ++ "V4_5" =
      "Style exceeds 1000 character limit for V4_5" := rfl
  cases i <;> simp [validate_inputs, e1, e2] <;> try (split_ifs <;> simp_all)

lemma c1h1 (p s t : String) (i : Bool) :
    "Title exceeds 80 character limit" ∈ (validate_inputs p s t true i "V4").2 ↔
      (stripEmpty t = false ∧ 80 < t.length) := by
  have e1 : "Prompt exceeds " ++ toString 3000 ++ " character limit for " ++ "V4" =
      "Prompt exceeds 3000 character limit for V4" := rfl
  have e2 : "Style exceeds " ++ toString 200 ++ " character limit for " ++ "V4" =
      "Style exceeds 200 character limit for V4" := rfl
  cases i <;> simp [validate_inputs, e1, e2] <;> try (split_ifs <;> simp_all)

lemma c1h2 (p s t : String) (i : Bool) :
    "Title exceeds 80 character limit" ∈ (validate_inputs p s t true i "V3_5").2 ↔
      (stripEmpty t = false ∧ 80 < t.length) := by
  have e1 : "Prompt exceeds " ++ toString 3000 ++ " character limit for " ++ "V3_5" =
      "Prompt exceeds 3000 character limit for V3_5" := rfl
  have e2 : "Style exceeds " ++ toString 200 ++ " character limit for " ++ "V3_5" =
      "Style exceeds 200 character limit for V3_5" := rfl
  cases i <;> simp [validate_inputs, e1, e2] <;> try (split_ifs <;> simp_all)

lemma c1h3 (p s t : String) (i : Bool) :
    "Title exceeds 80 character limit" ∈ (validate_inputs p s t true i "V4_5").2 ↔
      (stripEmpty t = false ∧ 80 < t.length) := by
  have e1 : "Prompt exceeds " ++ toString 5000 ++ " character limit for " ++ "V4_5" =
      "Prompt exceeds 5000 character limit for V4_5" := rfl
  have e2 : "Style exceeds " ++ toString 1000 ++ " character limit for " ++ "V4_5" =
      "Style exceeds 1000 character limit for V4_5" := rfl
  cases i <;> simp [validate_inputs, e1, e2] <;> try (split_ifs <;> simp_all)

lemma c1i1 (p s t : String) (i : Bool) :
    "Title is required in custom mode" ∈ (validate_inputs p s t true i "V4").2 ↔
      stripEmpty t = true := by
  have e1 : "Prompt exceeds " ++ toString 3000 ++ " character limit for " ++ "V4" =
      "Prompt exceeds 3000 character limit for V4" := rfl
  have e2 : "Style exceeds " ++ toString 200 ++ " character limit for " ++ "V4" =
      "Style exceeds 200 character limit for V4" := rfl
  cases i <;> simp [validate_inputs, e1, e2] <;> try (split_ifs <;> simp_all)

lemma c1i2 (p s t : String) (i : Bool) :
    "Title is required in custom mode" ∈ (validate_inputs p s t true i "V3_5").2 ↔
      stripEmpty t = true := by
  have e1 : "Prompt exceeds " ++ toString 3000 ++ " character limit for " ++ "V3_5" =
      "Prompt exceeds 3000 character limit for V3_5" := rfl
  have e2 : "Style exceeds " ++ toString 200 ++ " character limit for " ++ "V3_5" =
      "Style exceeds 200 character limit for V3_5" := rfl
  cases i <;> simp [validate_inputs, e1, e2] <;> try (split_ifs <;> simp_all)

lemma c1i3 (p s t : String) (i : Bool) :
    "Title is required in custom mode" ∈ (validate_inputs p s t true i "V4_5").2 ↔
      stripEmpty t = true := by
  have e1 : "Prompt exceeds " ++ toString 5000 ++ " character limit for " ++ "V4_5" =
      "Prompt exceeds 5000 character limit for V4_5" := rfl
  have e2 : "Style exceeds " ++ toString 1000 ++ " character limit for " ++ "V4_5" =
      "Style exceeds 1000 character limit for V4_5" := rfl
  cases i <;> simp [validate_inputs, e1, e2] <;> try (split_ifs <;> simp_all)

/-- Claim C1: the validator fires each character-limit and required-field
error exactly above its documented threshold — prompt limit 3000 (custom) /
400 (non-custom) for V3_5 and V4 and 5000 (custom) / 400 (non-custom) for
V4_5, style limit 200 for V3_5/V4 and 1000 for V4_5, title limit 80 — and the
returned boolean is true exactly when the returned error list is empty. In
particular, for V4 in custom non-instrumental mode a 3000-character prompt
yields no prompt-limit error while a 3001-character prompt yields one. -/
theorem c1_validate_thresholds :
    (∀ p s t cm i m,
      (validate_inputs p s t cm i m).1 = true ↔ (validate_inputs p s t cm i m).2 = []) ∧
    (∀ p s t, "Prompt exceeds 3000 character limit for V4" ∈
      (validate_inputs p s t true false "V4").2 ↔ 3000 < p.length) ∧
    (∀ p s t, "Prompt exceeds 3000 character limit for V3_5" ∈
      (validate_inputs p s t true false "V3_5").2 ↔ 3000 < p.length) ∧
    (∀ p s t, "Prompt exceeds 5000 character limit for V4_5" ∈
      (validate_inputs p s t true false "V4_5").2 ↔ 5000 < p.length) ∧
    (∀ p s t i m, "Prompt exceeds 400 character limit in non-custom mode" ∈
      (validate_inputs p s t false i m).2 ↔ 400 < p.length) ∧
    (∀ p s t i m, "Prompt is required" ∈
      (validate_inputs p s t false i m).2 ↔ stripEmpty p = true) ∧
    (∀ p s t, "Prompt is required when not instrumental in custom mode" ∈
      (validate_inputs p s t true false "V4").2 ↔ stripEmpty p = true) ∧
    (∀ p s t, "Prompt is required when not instrumental in custom mode" ∈
      (validate_inputs p s t true false "V3_5").2 ↔ stripEmpty p = true) ∧
    (∀ p s t, "Prompt is required when not instrumental in custom mode" ∈
      (validate_inputs p s t true false "V4_5").2 ↔ stripEmpty p = true) ∧
    (∀ p s t i, "Style exceeds 200 character limit for V4" ∈
      (validate_inputs p s t true i "V4").2 ↔ (stripEmpty s = false ∧ 200 < s.length)) ∧
    (∀ p s t i, "Style exceeds 200 character limit for V3_5" ∈
      (validate_inputs p s t true i "V3_5").2 ↔ (stripEmpty s = false ∧ 200 < s.length)) ∧
    (∀ p s t i, "Style exceeds 1000 character limit for V4_5" ∈
      (validate_inputs p s t true i "V4_5").2 ↔ (stripEmpty s = false ∧ 1000 < s.length)) ∧
    (∀ p s t i, "Style is required in custom mode" ∈
      (validate_inputs p s t true i "V4").2 ↔ stripEmpty s = true) ∧
    (∀ p s t i, "Style is required in custom mode" ∈
      (validate_inputs p s t true i "V3_5").2 ↔ stripEmpty s = true) ∧
    (∀ p s t i, "Style is required in custom mode" ∈
      (validate_inputs p s t true i "V4_5").2 ↔ stripEmpty s = true) ∧
    (∀ p s t i, "Title exceeds 80 character limit" ∈
      (validate_inputs p s t true i "V4").2 ↔ (stripEmpty t = false ∧ 80 < t.length)) ∧
    (∀ p s t i, "Title exceeds 80 character limit" ∈
      (validate_inputs p s t true i "V3_5").2 ↔ (stripEmpty t = false ∧ 80 < t.length)) ∧
    (∀ p s t i, "Title exceeds 80 character limit" ∈
      (validate_inputs p s t true i "V4_5").2 ↔ (stripEmpty t = false ∧ 80 < t.length)) ∧
    (∀ p s t i, "Title is required in custom mode" ∈
      (validate_inputs p s t true i "V4").2 ↔ stripEmpty t = true) ∧
    (∀ p s t i, "Title is required in custom mode" ∈
      (validate_inputs p s t true i "V3_5").2 ↔ stripEmpty t = true) ∧
    (∀ p s t i, "Title is required in custom mode" ∈
      (validate_inputs p s t true i "V4_5").2 ↔ stripEmpty t = true) :=
  ⟨c1a, c1b1, c1b2, c1b3, c1c, c1d, c1e1, c1e2, c1e3, c1f1, c1f2, c1f3,
   c1g1, c1g2, c1g3, c1h1, c1h2, c1h3, c1i1, c1i2, c1i3⟩

/-- Claim C9: when custom mode and instrumental are both on, the validator
never looks at the prompt — the whole result is independent of it, and any
prompt (empty or arbitrarily long) passes whenever style and title are
valid. -/
theorem c9_instrumental_ignores_prompt :
    (∀ p q s t m, validate_inputs p s t true true m = validate_inputs q s t true true m) ∧
    (∀ p m, (validate_inputs p "Rock" "Song" true true m).1 = true) := by
  constructor
  · intro p q s t m
    simp [validate_inputs]
  · intro p m
    have hs : stripEmpty "Rock" = false := rfl
    have ht : stripEmpty "Song" = false := rfl
    have hsl : ("Rock" : String).length = 4 := rfl
    have htl : ("Song" : String).length = 4 := rfl
    simp [validate_inputs, hs, ht, hsl, htl]
    split_ifs <;> simp

/-! ### Status-transition lemmas (claim C4) -/

lemma entryForward_refl (x : String × Entry) : entryForward x x :=
  ⟨rfl, fun _ => rfl, fun hq => absurd rfl hq⟩

lemma processEntry_forward (env : String → HttpOutcome) (denv : String → String → HttpOutcome)
    (e e2 : Entry) (songs : List Json) (upd : Bool)
    (h : processEntry env denv e = .ok (e2, songs, upd)) :
    (e.status ≠ "processing" → e2 = e) ∧
    (e2 ≠ e → e2.status = "complete" ∨ e2.status = "error") := by
  unfold processEntry at h
  split at h
  case isTrue hs =>
    refine ⟨fun hns => absurd hs hns, ?_⟩
    split at h
    case h_1 =>
      simp only [Except.ok.injEq, Prod.mk.injEq] at h
      intro hne; exact absurd h.1.symm hne
    case h_2 tid =>
      split at h
      case isTrue =>
        simp only [Except.ok.injEq, Prod.mk.injEq] at h
        intro hne; exact absurd h.1.symm hne
      case isFalse =>
        split at h
        case h_1 songs0 =>
          simp only [Except.ok.injEq, Prod.mk.injEq] at h
          intro _; exact Or.inl (by rw [← h.1])
        case h_2 m =>
          simp only [Except.ok.injEq, Prod.mk.injEq] at h
          intro _; exact Or.inr (by rw [← h.1])
        case h_3 =>
          simp only [Except.ok.injEq, Prod.mk.injEq] at h
          intro hne; exact absurd h.1.symm hne
        case h_4 m => exact absurd h (by simp)
  case isFalse hs =>
    simp only [Except.ok.injEq, Prod.mk.injEq] at h
    exact ⟨fun _ => h.1.symm, fun hne => absurd h.1.symm hne⟩

lemma check_entries_forward (env : String → HttpOutcome) (denv : String → String → HttpOutcome)
    (entries : List (String × Entry)) :
    List.Forall₂ entryForward entries (check_entries env denv entries).1 := by
  induction entries with
  | nil => simp [check_entries]
  | cons ke rest ih =>
    obtain ⟨k, e⟩ := ke
    cases hp : processEntry env denv e with
    | error msg =>
      simp only [check_entries, hp]
      exact List.Forall₂.cons (entryForward_refl _)
        (List.forall₂_same.mpr (fun x _ => entryForward_refl x))
    | ok tr =>
      obtain ⟨e2, songs, upd⟩ := tr
      simp only [check_entries, hp]
      refine List.Forall₂.cons ?_ ih
      have hf := processEntry_forward env denv e e2 songs upd hp
      exact ⟨rfl, fun hns => hf.1 hns, fun hne => hf.2 hne⟩

/-- Claim C4: one status check maps the `generation_status` entries pointwise
(same keys, same count) so that an entry whose status is not `processing` is
left unchanged and a mutated entry only ever acquires status `complete` or
`error`; consequently entries already `complete` or `error` are never
reverted by any later check. -/
theorem c4_status_forward (env : String → HttpOutcome)
    (denv : String → String → HttpOutcome) (st : SessionState) :
    List.Forall₂ entryForward st.generation_status
      (check_and_update_status env denv st).1.generation_status := by
  unfold check_and_update_status
  by_cases hk : st.api_key = ""
  · rw [if_pos hk]
    exact List.forall₂_same.mpr (fun x _ => entryForward_refl x)
  · rw [if_neg hk]
    exact check_entries_forward env denv st.generation_status

/-- Claim C5: on the response `{"data": [{"task_id": "abc123"}]}` — where the
claim says the identifier `abc123` is extracted from the first list element —
the extraction instead raises `AttributeError`, because
the chained lookup under `data` calls `.get` on a list; the
dict-nested and top-level lookups, by contrast, behave as claimed. -/
theorem c5_extraction_crash :
    (extract_task_id (Json.obj [("data", Json.arr [Json.obj [("task_id", Json.str "abc123")]])]) =
      Except.error "AttributeError: object has no attribute get") ∧
    (extract_task_id (Json.obj [("data", Json.obj [("task_id", Json.str "abc123")])]) =
      Except.ok (some (Json.str "abc123"))) ∧
    (extract_task_id (Json.obj [("taskId", Json.str "xyz")]) =
      Except.ok (some (Json.str "xyz"))) :=
  ⟨rfl, rfl, rfl⟩

/-- Claim C8: `display_song_card` is bound nowhere at module level, so
rendering the Generated Songs tab with any non-empty song list raises a
`NameError`. -/
theorem c8_missing_display (songs : List Json) (h : songs ≠ []) :
    "display_song_card" ∉ moduleTopLevelNames ∧
    renderGeneratedSongsTab songs =
      Except.error "NameError: name display_song_card is not defined" := by
  refine ⟨by decide, ?_⟩
  have hne : songs.isEmpty = false := by
    cases songs with
    | nil => exact absurd rfl h
    | cons a l => rfl
  simp [renderGeneratedSongsTab, hne, moduleTopLevelNames]

/-- Claim C8 witness: a one-song list triggers the `NameError`. -/
theorem c8_missing_display_witness :
    (([Json.null] : List Json) ≠ []) ∧
    renderGeneratedSongsTab [Json.null] =
      Except.error "NameError: name display_song_card is not defined" :=
  ⟨by simp, (c8_missing_display [Json.null] (by simp)).2⟩

/-- Claim C10: with custom mode and instrumental both on, the serialized
payload carries `style` and `title` but no `prompt` key; in each of the three
other mode combinations the payload carries `prompt`. -/
theorem c10_payload_keys (p s t m n cb : String) :
    ("style" ∈ (build_payload p s t true true m n cb).map Prod.fst) ∧
    ("title" ∈ (build_payload p s t true true m n cb).map Prod.fst) ∧
    ("prompt" ∉ (build_payload p s t true true m n cb).map Prod.fst) ∧
    ("prompt" ∈ (build_payload p s t true false m n cb).map Prod.fst) ∧
    ("prompt" ∈ (build_payload p s t false true m n cb).map Prod.fst) ∧
    ("prompt" ∈ (build_payload p s t false false m n cb).map Prod.fst) := by
  by_cases hn : n = "" <;>
    simp [build_payload, dictSet, dictPop, hn]

/-! ### Completion lemmas (claim C6) -/

lemma completionDecision_iff (d : Json) :
    ((∃ songs, songs ≠ [] ∧ completionDecision d = .complete songs) ↔
      claimedCompletion d = true) ∧
    (∀ xs, jsonGet d "data" = some (Json.arr xs) → claimedCompletion d = true →
      completionDecision d = .complete xs) := by
  cases d with
  | obj kvs =>
    simp only [completionDecision, claimedCompletion, jsonGet, pyGet]
    by_cases hcode : isNum200 (jlookup kvs "code") = true
    case neg =>
      rw [Bool.not_eq_true] at hcode
      simp [hcode]
    case pos =>
      simp only [hcode, if_true, Bool.true_and]
      cases hdat : jlookup kvs "data" with
      | none => simp [hdat, truthyOpt]
      | some v =>
        cases v with
        | null => simp [hdat, truthyOpt, Json.truthy]
        | bool b => cases b <;> simp [hdat, truthyOpt, Json.truthy]
        | num n => simp [hdat, truthyOpt, Json.truthy]
        | str s => simp [hdat, truthyOpt, Json.truthy]
        | obj dk =>
          by_cases hdk : truthyOpt (some (Json.obj dk)) = true
          · by_cases hau : truthyOpt (jlookup dk "audio_url") = true
            · simp [hdat, hdk, hau]
            · rw [Bool.not_eq_true] at hau
              simp [hdat, hdk, hau]
          · rw [Bool.not_eq_true] at hdk
            simp [hdat, hdk]
        | arr xs =>
          cases xs with
          | nil => simp [hdat, truthyOpt, Json.truthy]
          | cons first others =>
            have htr : truthyOpt (some (Json.arr (first :: others))) = true := by
              simp [truthyOpt, Json.truthy]
            cases first with
            | obj fk =>
              by_cases hau : truthyOpt (jlookup fk "audio_url") = true
              · simp [hdat, htr, pyGet, hau]
              · rw [Bool.not_eq_true] at hau
                simp [hdat, htr, pyGet, hau]
            | null => simp [hdat, htr, pyGet]
            | bool b => simp [hdat, htr, pyGet]
            | num n => simp [hdat, htr, pyGet]
            | str s => simp [hdat, htr, pyGet]
            | arr ys => simp [hdat, htr, pyGet]
  | null => simp [completionDecision, claimedCompletion, jsonGet, pyGet, isNum200]
  | bool b => simp [completionDecision, claimedCompletion, jsonGet, pyGet, isNum200]
  | num n => simp [completionDecision, claimedCompletion, jsonGet, pyGet, isNum200]
  | str s => simp [completionDecision, claimedCompletion, jsonGet, pyGet, isNum200]
  | arr xs => simp [completionDecision, claimedCompletion, jsonGet, pyGet, isNum200]

lemma pollOutcome_success (env : String → HttpOutcome) (denv : String → String → HttpOutcome)
    (tid : String) (d : Json)
    (h4 : (get_generation_status env tid).success = true)
    (h5 : (get_generation_status env tid).data = some d) :
    pollOutcome env denv tid = completionDecision d := by
  unfold pollOutcome
  simp [h4, h5]

lemma processEntry_complete_equiv (env : String → HttpOutcome)
    (denv : String → String → HttpOutcome) (e : Entry) (tid : String)
    (h1 : e.status = "processing") (h2 : e.task_id = some tid) (h3 : tid ≠ "")
    (songs : List Json) :
    processEntry env denv e = .ok ({ e with status := "complete" }, songs, true) ↔
      pollOutcome env denv tid = .complete songs := by
  unfold processEntry
  rw [if_pos h1, h2]
  simp only [h3, if_false, if_neg h3]
  cases hp : pollOutcome env denv tid <;> simp [hp]

/-- Claim C6: for a processing entry with a non-empty task id whose poll
succeeded with body `d`, the status check marks the entry `complete` and
appends a non-empty song list exactly when `d` has `code` 200, a non-empty
`data` section, and a non-empty `audio_url` on the `data` dict itself or on
the first element of the `data` list; and in the list case the songs appended
are the whole list, not only the element whose `audio_url` was checked. -/
theorem c6_completion (env : String → HttpOutcome) (denv : String → String → HttpOutcome)
    (e : Entry) (tid : String) (d : Json)
    (h1 : e.status = "processing") (h2 : e.task_id = some tid) (h3 : tid ≠ "")
    (h4 : (get_generation_status env tid).success = true)
    (h5 : (get_generation_status env tid).data = some d) :
    ((∃ songs, songs ≠ [] ∧
        processEntry env denv e = .ok ({ e with status := "complete" }, songs, true)) ↔
      claimedCompletion d = true) ∧
    (∀ xs, jsonGet d "data" = some (Json.arr xs) → claimedCompletion d = true →
      processEntry env denv e = .ok ({ e with status := "complete" }, xs, true)) := by
  have hps := pollOutcome_success env denv tid d h4 h5
  have hcd := completionDecision_iff d
  constructor
  · rw [← hcd.1]
    constructor
    · rintro ⟨songs, hne, heq⟩
      exact ⟨songs, hne, by
        rw [← hps]
        exact (processEntry_complete_equiv env denv e tid h1 h2 h3 songs).mp heq⟩
    · rintro ⟨songs, hne, heq⟩
      exact ⟨songs, hne,
        (processEntry_complete_equiv env denv e tid h1 h2 h3 songs).mpr (by rw [hps, heq])⟩
  · intro xs hx hc
    exact (processEntry_complete_equiv env denv e tid h1 h2 h3 xs).mpr
      (by rw [hps]; exact hcd.2 xs hx hc)

/-- Claim C6 witness: a poll answering 200 with
`{"code": 200, "data": {"audio_url": "http://a/song.mp3"}}` completes a
processing entry with a non-empty song list. -/
theorem c6_completion_witness :
    ∃ songs, songs ≠ [] ∧
      processEntry
        (fun _ => HttpOutcome.resp 200 "{}" (Except.ok (Json.obj
          [("code", Json.num 200),
           ("data", Json.obj [("audio_url", Json.str "http://a/song.mp3")])])))
        (fun _ _ => HttpOutcome.exn "unused")
        { status := "processing", task_id := some "t", error_message := none, rest := [] } =
      .ok ({ status := "complete", task_id := some "t", error_message := none, rest := [] },
        songs, true) :=
  (c6_completion
    (fun _ => HttpOutcome.resp 200 "{}" (Except.ok (Json.obj
      [("code", Json.num 200),
       ("data", Json.obj [("audio_url", Json.str "http://a/song.mp3")])])))
    (fun _ _ => HttpOutcome.exn "unused")
    { status := "processing", task_id := some "t", error_message := none, rest := [] }
    "t"
    (Json.obj [("code", Json.num 200),
      ("data", Json.obj [("audio_url", Json.str "http://a/song.mp3")])])
    rfl rfl (by decide) rfl rfl).1.mpr rfl

end SunoApp
